import Mathlib

set_option maxRecDepth 10000

/-!
Shallow embedding of `src/connection_manager.py` (getappsh/tactor), the
tactical BitTorrent connection manager.

Modelling conventions:
* Python strings are modelled as `List Char`; `str.split`, `str.strip`,
  substring membership (`in`), `float(...)` and the regex
  `(\d+\.\d+|\d+) ms` are implemented below with Python semantics.
  `float(s)` is modelled by `pyFloat?` returning `none` exactly when the
  Python call raises `ValueError` (decimal/exponent literals; the exotic
  `inf`/`nan` inputs never arise from the probe outputs modelled here).
* Millisecond latencies and times are exact rationals (`ℚ`), the standard
  idealisation of Python floats for threshold arithmetic.
* `subprocess.run` for one ping target either raises (modelled as `none`
  in the per-target input list) or yields a `PingResult` (return code and
  captured stdout).
* `transmission_rpc_call` catches every failure of the HTTP layer
  (`requests.RequestException`, which includes auth, timeout and
  JSON-decode errors) and returns `None`; it is therefore modelled as a
  total function `Directive → Option (List TorrentInfo)` supplied by the
  environment (the "gateway behaviour"): the reply is `none` when the
  helper returns `None`, and only the `torrent-get` reply carries data.
* The body of the `while True` loop in `main` is one "cycle"; the
  `except Exception` boundary is modelled by `guardedCycle`, which also
  covers an exception escaping mid-body at the mutation-relevant points.
-/

/-- Connection quality tiers, the values of
`network_state["connection_quality"]`: `"good"`, `"poor"`, `"very_poor"`,
`"offline"`. -/
inductive ConnectionQuality
  | good
  | poor
  | very_poor
  | offline
deriving DecidableEq, Repr

/-- Bandwidth modes, the values of `network_state["bandwidth_mode"]`:
`"normal"`, `"conservative"`, `"minimal"`. -/
inductive BandwidthMode
  | normal
  | conservative
  | minimal
deriving DecidableEq, Repr

/-- The `network_state` dict: `last_online`, `is_online`,
`connection_quality`, `reconnect_count`, `bandwidth_mode`. -/
structure NetworkState where
  last_online : ℚ
  is_online : Bool
  connection_quality : ConnectionQuality
  reconnect_count : ℕ
  bandwidth_mode : BandwidthMode
deriving DecidableEq, Repr

/-- The initial `network_state` literal (lines 34–40 of the source):
online, quality `"good"`, zero reconnects, `"normal"` bandwidth mode;
`t0` is the `time.time()` value at module load. -/
def initial_network_state (t0 : ℚ) : NetworkState :=
  { last_online := t0
    is_online := true
    connection_quality := .good
    reconnect_count := 0
    bandwidth_mode := .normal }

/-- The `settings` dict passed to `session-set`.  The `"good"` branch omits
the `alt-speed-down` / `alt-speed-up` keys, hence the `Option` fields. -/
structure TransmissionSettings where
  alt_speed_enabled : Bool
  alt_speed_down : Option ℕ
  alt_speed_up : Option ℕ
  download_queue_size : ℕ
  peer_limit_global : ℕ
  peer_limit_per_torrent : ℕ
deriving DecidableEq, Repr

/-- One record of the `torrent-get` reply (only the fields the loop reads;
`dict.get` with default 0 motivates the `Option`s). -/
structure TorrentInfo where
  rateDownload : Option ℤ
  rateUpload : Option ℤ
deriving DecidableEq, Repr

/-- An RPC method invoked on Transmission: `torrent-stop` (pause all),
`torrent-start` (resume all), `session-set`, `torrent-get`. -/
inductive Directive
  | torrentStop
  | torrentStart
  | sessionSet (s : TransmissionSettings)
  | torrentGet
deriving DecidableEq, Repr

/-- Result of `subprocess.run(["ping", ...])` for one target: exit code
and captured stdout. -/
structure PingResult where
  returncode : ℤ
  stdout : List Char
deriving DecidableEq, Repr

/-! ### Python string primitives over `List Char` -/

/-- `isPrefixL pat s`: does `s` start with `pat`? -/
def isPrefixL : List Char → List Char → Bool
  | [], _ => true
  | _ :: _, [] => false
  | a :: as, b :: bs => a = b && isPrefixL as bs

/-- Python substring membership `pat in s`. -/
def containsSub (pat : List Char) : List Char → Bool
  | [] => pat.isEmpty
  | c :: rest => isPrefixL pat (c :: rest) || containsSub pat rest

/-- Index of the first occurrence of `sep` in `s`, if any. -/
def findSub (sep : List Char) : List Char → Option ℕ
  | [] => if sep.isEmpty then some 0 else none
  | c :: rest =>
      if isPrefixL sep (c :: rest) then some 0
      else (findSub sep rest).map (· + 1)

/-- Fuelled worker for `splitOnL`; fuel `s.length + 1` suffices for the
nonempty separators used by the parser. -/
def splitOnAux (sep : List Char) : ℕ → List Char → List (List Char)
  | 0, s => [s]
  | fuel + 1, s =>
      match findSub sep s with
      | none => [s]
      | some i => s.take i :: splitOnAux sep fuel (s.drop (i + sep.length))

/-- Python `s.split(sep)` for a nonempty separator. -/
def splitOnL (sep s : List Char) : List (List Char) :=
  splitOnAux sep (s.length + 1) s

/-- ASCII whitespace, for `str.strip()`. -/
def isSpaceChar (c : Char) : Bool :=
  c = ' ' || c = '\t' || c = '\n' || c = '\r' || c = '\x0b' || c = '\x0c'

/-- Python `s.strip()`. -/
def stripL (s : List Char) : List Char :=
  ((s.dropWhile isSpaceChar).reverse.dropWhile isSpaceChar).reverse

/-- Numeric value of a digit run. -/
def digitsVal (ds : List Char) : ℕ :=
  ds.foldl (fun acc c => 10 * acc + (c.toNat - '0'.toNat)) 0

/-- Value of `intPart.fracPart` as a rational. -/
def decVal (intPart fracPart : List Char) : ℚ :=
  (digitsVal intPart : ℚ) + (digitsVal fracPart : ℚ) / (10 : ℚ) ^ fracPart.length

/-- Model of Python `float(s)`: optional sign, decimal digits with an
optional point and an optional exponent; `none` exactly when `float`
raises `ValueError`. -/
def pyFloat? (s : List Char) : Option ℚ :=
  let t := stripL s
  let (sign, t1) : ℚ × List Char :=
    match t with
    | '+' :: r => (1, r)
    | '-' :: r => (-1, r)
    | r => (1, r)
  let intDs := t1.takeWhile Char.isDigit
  let r1 := t1.dropWhile Char.isDigit
  let (hasDot, fracDs, r2) : Bool × List Char × List Char :=
    match r1 with
    | '.' :: r => (true, r.takeWhile Char.isDigit, r.dropWhile Char.isDigit)
    | r => (false, [], r)
  if intDs.isEmpty && (!hasDot || fracDs.isEmpty) then none
  else
    let mant : ℚ := decVal intDs fracDs
    match r2 with
    | [] => some (sign * mant)
    | e :: r3 =>
        if e = 'e' || e = 'E' then
          let (esign, r4) : Bool × List Char :=
            match r3 with
            | '+' :: r => (true, r)
            | '-' :: r => (false, r)
            | r => (true, r)
          let expDs := r4.takeWhile Char.isDigit
          let r5 := r4.dropWhile Char.isDigit
          if expDs.isEmpty || !r5.isEmpty then none
          else if esign then some (sign * mant * (10 : ℚ) ^ digitsVal expDs)
          else some (sign * mant / (10 : ℚ) ^ digitsVal expDs)
        else none

/-- One attempted match of the regex `(\d+\.\d+|\d+) ms` at the head of
`s`: the captured value and the total matched length.  Maximal digit runs
are forced (a shorter greedy run would leave a digit where `.` or a space
is required), so the match is deterministic. -/
def matchMsAt (s : List Char) : Option (ℚ × ℕ) :=
  let d1 := s.takeWhile Char.isDigit
  let r1 := s.dropWhile Char.isDigit
  if d1.isEmpty then none
  else
    let alt1 : Option (ℚ × ℕ) :=
      match r1 with
      | '.' :: r2 =>
          let d2 := r2.takeWhile Char.isDigit
          let r3 := r2.dropWhile Char.isDigit
          if !d2.isEmpty && isPrefixL [' ', 'm', 's'] r3 then
            some (decVal d1 d2, d1.length + 1 + d2.length + 3)
          else none
      | _ => none
    match alt1 with
    | some x => some x
    | none =>
        if isPrefixL [' ', 'm', 's'] r1 then
          some ((digitsVal d1 : ℚ), d1.length + 3)
        else none

/-- Fuelled scan for `re.findall(r'(\d+\.\d+|\d+) ms', s)` (left to
right, non-overlapping), returning `float` of each captured group. -/
def findAllMs : ℕ → List Char → List ℚ
  | 0, _ => []
  | _, [] => []
  | fuel + 1, c :: rest =>
      match matchMsAt (c :: rest) with
      | some (q, len) => q :: findAllMs fuel ((c :: rest).drop len)
      | none => findAllMs fuel rest

/-! ### `measure_connection_quality` (source lines 102–167) -/

/-- The fallback latency assumed when parsing raises (line 150). -/
def fallbackLatency : ℚ := 1000

/-- `parts = output.split("min/avg/max")[1].strip()` (line 126); the index
is guarded by the `in` check, so the split has a second element. -/
def mamParts (out : List Char) : List Char :=
  stripL ((splitOnL "min/avg/max".data out).getD 1 [])

/-- `float(parts.split("/")[1].strip())` (line 128), `none` when `float`
raises; the index is guarded by `"/" in parts`. -/
def mamMiddle (out : List Char) : Option ℚ :=
  pyFloat? (stripL ((splitOnL ['/'] (mamParts out)).getD 1 []))

/-- `output.split("Average =")[1]` (line 133): `none` models the
`IndexError` when `"Average ="` does not occur in the output. -/
def avgTail (out : List Char) : Option (List Char) :=
  (splitOnL "Average =".data out).get? 1

/-- `float(tail.split("ms")[0].strip())` (line 133), `none` when `float`
raises. -/
def avgValue (tail : List Char) : Option ℚ :=
  pyFloat? (stripL ((splitOnL "ms".data tail).getD 0 []))

/-- Latency contributed by one target whose ping exited with status 0
(lines 120–151): `some v` adds `v` to `total_time` and bumps
`successful_pings`; `none` means the branch recorded nothing (no
exception was raised and no value matched).  A raised
`ValueError`/`IndexError` is caught at line 146 and contributes the
1000 ms fallback. -/
def parsePingOutput (out : List Char) : Option ℚ :=
  if containsSub "min/avg/max".data out then
    if containsSub ['/'] (mamParts out) then
      match mamMiddle out with
      | some v => some v
      | none => some fallbackLatency
    else none
  else if containsSub "Average".data out then
    match avgTail out with
    | none => some fallbackLatency
    | some tail =>
        match avgValue tail with
        | some v => some v
        | none => some fallbackLatency
  else
    if (findAllMs out.length out).isEmpty then none
    else
      some ((findAllMs out.length out).sum /
        ((findAllMs out.length out).length : ℚ))

/-- True exactly on the outputs whose parse raises a caught
`ValueError`/`IndexError` (lines 146–151): a `min/avg/max` section with a
slash whose middle field fails `float`, or an output containing
`"Average"` where either `"Average ="` is absent (IndexError) or the
value fails `float`. -/
def parseAttemptRaises (out : List Char) : Bool :=
  if containsSub "min/avg/max".data out then
    containsSub ['/'] (mamParts out) && (mamMiddle out).isNone
  else if containsSub "Average".data out then
    match avgTail out with
    | none => true
    | some tail => (avgValue tail).isNone
  else false

/-- Latency contributed by one target: nothing unless the ping exited 0
(line 118). -/
def targetContribution (r : PingResult) : Option ℚ :=
  if r.returncode = 0 then parsePingOutput r.stdout else none

/-- The list of per-target latency samples accumulated by the loop of
lines 107–154; a `none` entry is a target whose `subprocess.run` raised
(`continue`, line 154). -/
def pingSamples (results : List (Option PingResult)) : List ℚ :=
  results.filterMap (fun o => o.bind targetContribution)

/-- The threshold classification of `avg_ping` (lines 162–167). -/
def classifyAvg (avg : ℚ) : ConnectionQuality :=
  if avg < 200 then .good
  else if avg < 500 then .poor
  else .very_poor

/-- `measure_connection_quality` (lines 102–167): offline when no target
produced a sample, otherwise the threshold classification of the mean. -/
def measure_connection_quality (results : List (Option PingResult)) :
    ConnectionQuality :=
  let samples := pingSamples results
  if samples.length = 0 then .offline
  else classifyAvg (samples.sum / (samples.length : ℚ))

/-! ### `adjust_transmission_settings` (source lines 169–227) -/

/-- The `settings` dict literal of each branch of
`adjust_transmission_settings` (lines 176–217). -/
def policySettings : ConnectionQuality → TransmissionSettings
  | .offline =>
      { alt_speed_enabled := true
        alt_speed_down := some 10
        alt_speed_up := some 1
        download_queue_size := 1
        peer_limit_global := 20
        peer_limit_per_torrent := 5 }
  | .very_poor =>
      { alt_speed_enabled := true
        alt_speed_down := some 20
        alt_speed_up := some 2
        download_queue_size := 1
        peer_limit_global := 30
        peer_limit_per_torrent := 10 }
  | .poor =>
      { alt_speed_enabled := true
        alt_speed_down := some 50
        alt_speed_up := some 5
        download_queue_size := 2
        peer_limit_global := 50
        peer_limit_per_torrent := 15 }
  | .good =>
      { alt_speed_enabled := false
        alt_speed_down := none
        alt_speed_up := none
        download_queue_size := 3
        peer_limit_global := 100
        peer_limit_per_torrent := 30 }

/-- `adjust_transmission_settings(connection_quality)` (lines 169–227):
returns the mutated `network_state` and the sequence of RPC calls it
issues, in order.  The offline branch calls `pause_all_torrents()`
(`torrent-stop`) before the `session-set`; the good branch calls
`resume_all_torrents()` (`torrent-start`) before the `session-set`, but
only when the *current* value of `network_state["connection_quality"]`
is `"offline"` at the time of the call (line 221). -/
def adjust_transmission_settings (q : ConnectionQuality) (st : NetworkState) :
    NetworkState × List Directive :=
  match q with
  | .offline =>
      ({ st with bandwidth_mode := .minimal },
       [Directive.torrentStop, Directive.sessionSet (policySettings .offline)])
  | .very_poor =>
      ({ st with bandwidth_mode := .minimal },
       [Directive.sessionSet (policySettings .very_poor)])
  | .poor =>
      ({ st with bandwidth_mode := .conservative },
       [Directive.sessionSet (policySettings .poor)])
  | .good =>
      ({ st with bandwidth_mode := .normal },
       (if st.connection_quality = .offline then [Directive.torrentStart]
        else []) ++ [Directive.sessionSet (policySettings .good)])

/-! ### The poll cycle (`main`, source lines 256–295) -/

/-- Environment inputs of one cycle: the result of the cheap
reachability pre-check (`check_network_connectivity`), the per-target
ping results of the quality measurement (consulted only when the
pre-check succeeds), and the `time.time()` value. -/
structure CycleInput where
  reachable : Bool
  probes : List (Option PingResult)
  now : ℚ
deriving DecidableEq, Repr

/-- The counts written by the torrent-status log line (lines 276–278). -/
structure CycleLog where
  torrents : ℕ
  activeDownloads : ℕ
  activeUploads : ℕ
deriving DecidableEq, Repr

/-- Output of one completed cycle body: the new state, the RPC calls
issued (in order), and the torrent log of the online branch. -/
structure CycleResult where
  state : NetworkState
  calls : List Directive
  log : Option CycleLog
deriving DecidableEq, Repr

/-- The gateway behaviour for one cycle: the reply of
`transmission_rpc_call` for each call; `none` is the helper's `None`
(session-id failure, non-200 status, or request exception), and only the
`torrent-get` reply carries torrent data. -/
def GatewayBehaviour := Directive → Option (List TorrentInfo)

/-- A gateway on which every call fails (`transmission_rpc_call` returns
`None` each time). -/
def failingGateway : GatewayBehaviour := fun _ => none

/-- `get_torrent_list()` (lines 239–247): the torrent list of the reply,
or `[]` when the call failed or the reply lacks the expected keys. -/
def get_torrent_list (gw : GatewayBehaviour) : List TorrentInfo :=
  (gw Directive.torrentGet).getD []

/-- One completed iteration of the `while True` body (lines 256–289).
Note the order in the online branch: `network_state` is updated
(including `connection_quality`, line 266) *before*
`adjust_transmission_settings` runs. -/
def runCycle (gw : GatewayBehaviour) (st : NetworkState) (inp : CycleInput) :
    CycleResult :=
  if inp.reachable then
    let q := measure_connection_quality inp.probes
    let st1 := { st with
      is_online := true
      last_online := inp.now
      connection_quality := q
      reconnect_count := 0 }
    let torrents := get_torrent_list gw
    { state := (adjust_transmission_settings q st1).1
      calls := (adjust_transmission_settings q st1).2 ++ [Directive.torrentGet]
      log := some ⟨torrents.length,
        (torrents.filter (fun t => 0 < t.rateDownload.getD 0)).length,
        (torrents.filter (fun t => 0 < t.rateUpload.getD 0)).length⟩ }
  else
    let st1 := { st with
      is_online := false
      connection_quality := .offline
      reconnect_count := st.reconnect_count + 1 }
    { state := (adjust_transmission_settings .offline st1).1
      calls := (adjust_transmission_settings .offline st1).2
      log := none }

/-- States after each of a sequence of completed cycles. -/
def iterCycles (gw : GatewayBehaviour) :
    NetworkState → List CycleInput → List NetworkState
  | _, [] => []
  | st, inp :: rest =>
      let st' := (runCycle gw st inp).state
      st' :: iterCycles gw st' rest

/-! ### The per-cycle exception boundary (lines 257, 291–292) -/

/-- Where an exception can escape the cycle body into the `except` at
line 291, relative to the state mutations: before any mutation (e.g.
`subprocess.run` raising an error the inner handlers do not catch), or
after the settings adjustment (e.g. malformed torrent data while
computing the activity counts).  The HTTP helper itself never raises
(it catches `requests.RequestException` internally). -/
inductive RaisePoint
  | preUpdate
  | postAdjust
deriving DecidableEq, Repr

/-- One cycle as observed by the loop: either the body completes, or an
exception reaches the `except Exception` boundary at the given point. -/
inductive CycleEvent
  | normal (inp : CycleInput)
  | raised (inp : CycleInput) (pt : RaisePoint)
deriving DecidableEq, Repr

/-- The `try`/`except Exception` boundary of the loop body (lines
257–292): a raised exception is caught and logged, leaving the state as
mutated up to the raise point; the loop then proceeds. -/
def guardedCycle (gw : GatewayBehaviour) (st : NetworkState) :
    CycleEvent → NetworkState × List Directive
  | .normal inp =>
      let r := runCycle gw st inp
      (r.state, r.calls)
  | .raised _ .preUpdate => (st, [])
  | .raised inp .postAdjust =>
      let r := runCycle gw st inp
      (r.state, r.calls)

/-- The `while True` loop (lines 256–295) over a finite prefix of its
cycle events: final state and the per-cycle call sequences. -/
def runLoop (gw : GatewayBehaviour) :
    NetworkState → List CycleEvent → NetworkState × List (List Directive)
  | st, [] => (st, [])
  | st, ev :: evs =>
      let (st', d) := guardedCycle gw st ev
      let (stF, ds) := runLoop gw st' evs
      (stF, d :: ds)

/-- The derived bandwidth mode of each tier, as assigned by the branches
of `adjust_transmission_settings` (lines 184, 196, 208, 218). -/
def bandwidthFor : ConnectionQuality → BandwidthMode
  | .offline => .minimal
  | .very_poor => .minimal
  | .poor => .conservative
  | .good => .normal

/-- The spec's state invariant: `bandwidth_mode` is the derived function
of `connection_quality`. -/
def stateInvariant (st : NetworkState) : Prop :=
  st.bandwidth_mode = bandwidthFor st.connection_quality

instance (st : NetworkState) : Decidable (stateInvariant st) := by
  unfold stateInvariant; infer_instance

/-! ### Concrete scenario inputs -/

/-- A healthy Linux-style ping summary: average latency 2 ms. -/
def goodProbeOutput : List Char := "min/avg/max 1/2/3".data

/-- A probe output whose `min/avg/max` middle field fails `float(...)`,
raising the `ValueError` caught at line 146. -/
def unparsableOutput : List Char := "min/avg/max x/y/z".data

/-- A cycle whose pre-check succeeds and whose one probed target reports
a 2 ms average: classified good. -/
def goodCycleInput : CycleInput := ⟨true, [some ⟨0, goodProbeOutput⟩], 100⟩

/-- A cycle whose pre-check succeeds but whose measurement collects no
sample: one probe exits with status 1, the other raises. -/
def measuredOfflineInput : CycleInput := ⟨true, [some ⟨1, "x".data⟩, none], 100⟩

/-- Both targets succeed with output whose parse raises: each gets the
1000 ms fallback. -/
def unparsableCycleInput : CycleInput :=
  ⟨true, [some ⟨0, unparsableOutput⟩, some ⟨0, unparsableOutput⟩], 100⟩

/-- Both targets exit nonzero with unparsable output: neither is counted. -/
def nonzeroExitCycleInput : CycleInput :=
  ⟨true, [some ⟨1, "garbage".data⟩, some ⟨2, "junk".data⟩], 100⟩

/-- A state recorded at the end of an offline cycle. -/
def wasOfflineState : NetworkState :=
  { last_online := 0
    is_online := false
    connection_quality := .offline
    reconnect_count := 3
    bandwidth_mode := .minimal }

/-- An offline-recorded state after five consecutive failed pre-checks. -/
def fiveFailState : NetworkState :=
  { last_online := 0
    is_online := false
    connection_quality := .offline
    reconnect_count := 5
    bandwidth_mode := .minimal }

/-! ### Helper lemmas -/

/-- `adjust_transmission_settings` only writes `bandwidth_mode` (to the
tier's derived mode); every other state field is untouched. -/
theorem adjust_state_fields (q : ConnectionQuality) (st : NetworkState) :
    (adjust_transmission_settings q st).1.connection_quality = st.connection_quality ∧
    (adjust_transmission_settings q st).1.is_online = st.is_online ∧
    (adjust_transmission_settings q st).1.last_online = st.last_online ∧
    (adjust_transmission_settings q st).1.reconnect_count = st.reconnect_count ∧
    (adjust_transmission_settings q st).1.bandwidth_mode = bandwidthFor q := by
  cases q <;> simp [adjust_transmission_settings, bandwidthFor]

/-- The recorded tier after a completed cycle: the measured quality when
the pre-check succeeded, `offline` otherwise. -/
theorem runCycle_quality (gw : GatewayBehaviour) (st : NetworkState)
    (inp : CycleInput) :
    (runCycle gw st inp).state.connection_quality =
      (if inp.reachable then measure_connection_quality inp.probes
       else .offline) := by
  by_cases hr : inp.reachable = true <;>
    simp [runCycle, hr, (adjust_state_fields _ _).1]

/-- A completed cycle always re-establishes the bandwidth-mode
invariant, whatever state it starts from. -/
theorem runCycle_invariant (gw : GatewayBehaviour) (st : NetworkState)
    (inp : CycleInput) : stateInvariant (runCycle gw st inp).state := by
  unfold stateInvariant
  by_cases hr : inp.reachable = true <;>
    simp [runCycle, hr, (adjust_state_fields _ _).1,
      (adjust_state_fields _ _).2.2.2.2, runCycle_quality]

/-! ### Claim theorems -/

/-- C1: the transition Offline → Good issues no resume-all at all —
and no cycle ever issues one.  `main` stores the new tier into
`network_state["connection_quality"]` (line 266) before
`adjust_transmission_settings` tests whether the previous tier was
`"offline"` (line 221), so the resume branch of line 222 is unreachable
from the loop, contradicting the comment guarding it ("If we were
previously offline, resume torrents") and the claimed exactly-one
resume-all directive. -/
theorem offline_to_good_issues_no_resume :
    (runCycle failingGateway wasOfflineState goodCycleInput).state.connection_quality
      = ConnectionQuality.good ∧
    (runCycle failingGateway wasOfflineState goodCycleInput).calls.count
      Directive.torrentStart = 0 ∧
    (runCycle failingGateway wasOfflineState goodCycleInput).calls =
      [Directive.sessionSet (policySettings .good), Directive.torrentGet] ∧
    (∀ gw st inp, (runCycle gw st inp).calls.count Directive.torrentStart = 0) := by
  refine ⟨by with_unfolding_all decide, by with_unfolding_all decide,
    by with_unfolding_all decide, ?_⟩
  intro gw st inp
  by_cases hr : inp.reachable = true
  · cases hq : measure_connection_quality inp.probes <;>
      simp [runCycle, hr, hq, adjust_transmission_settings]
  · simp [runCycle, hr, adjust_transmission_settings]

/-- C2 counterexample: a cycle whose pre-check succeeds but whose
measurement yields no sample is classified Offline, yet it *resets* the
reconnect counter to 0 (line 267) instead of incrementing it: from a
count of 5 the claim demands 6, the code gives 0. -/
theorem measured_offline_cycle_resets_counter :
    (runCycle failingGateway fiveFailState measuredOfflineInput).state.connection_quality
      = ConnectionQuality.offline ∧
    (runCycle failingGateway fiveFailState measuredOfflineInput).state.reconnect_count
      = 0 ∧
    fiveFailState.reconnect_count = 5 ∧ (0 : ℕ) ≠ 5 + 1 := by
  with_unfolding_all decide

/-- C2 amended: `reconnect_count` is governed by the reachability
pre-check, not by the recorded classification: it becomes 0 on every
cycle whose pre-check succeeds (even one classified Offline by the
measurement) and increments by one on every cycle whose pre-check fails;
the claimed sequence [1, 2, 3, 0, 1] holds for the cycle inputs
[pre-check-fail, fail, fail, good, fail]. -/
theorem reconnect_counter_rule :
    (∀ gw st inp, (runCycle gw st inp).state.reconnect_count =
      if inp.reachable then 0 else st.reconnect_count + 1) ∧
    (iterCycles failingGateway (initial_network_state 0)
      [⟨false, [], 1⟩, ⟨false, [], 2⟩, ⟨false, [], 3⟩,
       ⟨true, [some ⟨0, goodProbeOutput⟩], 4⟩, ⟨false, [], 5⟩]).map
      (fun s => s.reconnect_count) = [1, 2, 3, 0, 1] := by
  refine ⟨?_, by with_unfolding_all decide⟩
  intro gw st inp
  by_cases hr : inp.reachable = true <;>
    simp [runCycle, hr, (adjust_state_fields _ _).2.2.2.1]

/-- C4 counterexample: when both probes exit with *nonzero* status and
unparsable output, line 118 skips them entirely — no fallback, no
sample — so the classifier returns Offline, not VeryPoor, and the cycle
applies the Offline settings (download cap 10), not the claimed VeryPoor
settings (download cap 20). -/
theorem nonzero_exit_scenario_counterexample :
    measure_connection_quality
      [some ⟨1, "garbage".data⟩, some ⟨2, "junk".data⟩] =
        ConnectionQuality.offline ∧
    ConnectionQuality.offline ≠ ConnectionQuality.very_poor ∧
    (runCycle failingGateway (initial_network_state 0)
        nonzeroExitCycleInput).calls =
      [Directive.torrentStop, Directive.sessionSet (policySettings .offline),
       Directive.torrentGet] ∧
    policySettings .offline ≠
      ⟨true, some 20, some 2, 1, 30, 10⟩ := by
  with_unfolding_all decide

/-- C4 amended: in the intended scenario both probes *succeed* (exit
status 0) with output whose latency parse raises; then both targets are
counted at the 1000 ms fallback, the mean is 1000 ms, the tier is
VeryPoor, and the applied settings are alt-speed on, download cap 20,
upload cap 2, queue 1, global peers 30, per-torrent peers 10. -/
theorem unparsable_success_scenario :
    pingSamples [some ⟨0, unparsableOutput⟩, some ⟨0, unparsableOutput⟩] =
      [fallbackLatency, fallbackLatency] ∧
    (pingSamples [some ⟨0, unparsableOutput⟩, some ⟨0, unparsableOutput⟩]).sum /
      ((pingSamples [some ⟨0, unparsableOutput⟩,
          some ⟨0, unparsableOutput⟩]).length : ℚ) = 1000 ∧
    measure_connection_quality
      [some ⟨0, unparsableOutput⟩, some ⟨0, unparsableOutput⟩] =
        ConnectionQuality.very_poor ∧
    (runCycle failingGateway (initial_network_state 0)
        unparsableCycleInput).calls =
      [Directive.sessionSet ⟨true, some 20, some 2, 1, 30, 10⟩,
       Directive.torrentGet] := by
  with_unfolding_all decide

/-- C3: with zero usable samples the classifier returns Offline;
otherwise with mean `m` it returns Good for `m < 200`, Poor for
`200 ≤ m < 500`, VeryPoor for `m ≥ 500`, and the boundary values
199.999, 200.0, 499.999, 500.0 map to Good, Poor, Poor, VeryPoor. -/
theorem classifier_thresholds :
    (∀ results, pingSamples results = [] →
      measure_connection_quality results = ConnectionQuality.offline) ∧
    (∀ results, pingSamples results ≠ [] →
      ∀ m, m = (pingSamples results).sum / ((pingSamples results).length : ℚ) →
        (m < 200 → measure_connection_quality results = .good) ∧
        (200 ≤ m → m < 500 → measure_connection_quality results = .poor) ∧
        (500 ≤ m → measure_connection_quality results = .very_poor)) ∧
    classifyAvg (199999 / 1000) = ConnectionQuality.good ∧
    classifyAvg 200 = ConnectionQuality.poor ∧
    classifyAvg (499999 / 1000) = ConnectionQuality.poor ∧
    classifyAvg 500 = ConnectionQuality.very_poor := by
  refine ⟨?_, ?_, ?_, ?_, ?_, ?_⟩
  · intro results h
    simp [measure_connection_quality, h]
  · intro results h m hm
    have hlen : ¬((pingSamples results).length = 0) := by
      simpa [List.length_eq_zero] using h
    have hmeasure : measure_connection_quality results = classifyAvg m := by
      rw [hm]; simp [measure_connection_quality, hlen]
    refine ⟨fun h1 => ?_, fun h1 h2 => ?_, fun h1 => ?_⟩
    · rw [hmeasure]; simp only [classifyAvg, if_pos h1]
    · rw [hmeasure]; simp only [classifyAvg]
      rw [if_neg (by linarith), if_pos h2]
    · rw [hmeasure]; simp only [classifyAvg]
      rw [if_neg (by linarith), if_neg (by linarith)]
  · norm_num [classifyAvg]
  · norm_num [classifyAvg]
  · norm_num [classifyAvg]
  · norm_num [classifyAvg]

/-- C3 witness: the empty probe set classifies Offline, and a 2 ms-mean
probe set classifies Good. -/
theorem classifier_thresholds_witness :
    measure_connection_quality [] = ConnectionQuality.offline ∧
    measure_connection_quality [some ⟨0, goodProbeOutput⟩] =
      ConnectionQuality.good :=
  ⟨classifier_thresholds.1 [] rfl,
   (classifier_thresholds.2.1 [some ⟨0, goodProbeOutput⟩]
      (by with_unfolding_all decide) _ rfl).1 (by with_unfolding_all decide)⟩

/-- C5 counterexample: a target whose probe succeeds (exit status 0) but
whose output matches no recognized format and contains no `N ms` token
is silently dropped — no exception is raised, so the line-150 fallback
never runs — contradicting the claim that every successful-but-unparsable
target is counted at 1000 ms (which would classify the single-target set
VeryPoor rather than Offline). -/
theorem markerless_output_dropped :
    targetContribution ⟨0, "".data⟩ = none ∧
    pingSamples [some ⟨0, "".data⟩] = [] ∧
    pingSamples [some ⟨0, "".data⟩] ≠ [fallbackLatency] ∧
    measure_connection_quality [some ⟨0, "".data⟩] =
      ConnectionQuality.offline ∧
    measure_connection_quality [some ⟨0, "".data⟩] ≠
      ConnectionQuality.very_poor := by
  with_unfolding_all decide

/-- C5 amended: the 1000 ms fallback applies exactly to successful
probes whose parse *raises* the caught `ValueError`/`IndexError` (a
`min/avg/max` section with a slash whose middle field fails `float`, or
an output containing `"Average"` without a parsable `"Average ="`
value); such a target still contributes one sample, of value 1000 ms,
to the classification mean.  Successful probes matching no recognized
format are dropped instead. -/
theorem fallback_on_parse_error (out : List Char)
    (rest : List (Option PingResult)) (h : parseAttemptRaises out = true) :
    pingSamples (some ⟨0, out⟩ :: rest) =
      fallbackLatency :: pingSamples rest := by
  have hparse : parsePingOutput out = some fallbackLatency := by
    unfold parseAttemptRaises at h
    unfold parsePingOutput
    by_cases h1 : containsSub "min/avg/max".data out = true
    · simp only [h1, if_true] at h ⊢
      rw [Bool.and_eq_true] at h
      obtain ⟨h2, h3⟩ := h
      simp only [h2, if_true]
      rw [Option.isNone_iff_eq_none.mp h3]
    · simp only [h1, if_false, Bool.false_eq_true] at h ⊢
      by_cases h2 : containsSub "Average".data out = true
      · simp only [h2, if_true] at h ⊢
        cases ht : avgTail out with
        | none => rfl
        | some tail =>
            rw [ht] at h
            dsimp only at h
            show (match avgValue tail with
              | some v => some v
              | none => some fallbackLatency) = some fallbackLatency
            rw [Option.isNone_iff_eq_none.mp h]
      · simp only [h2, if_false, Bool.false_eq_true] at h
  simp [pingSamples, List.filterMap_cons, targetContribution, hparse]

/-- C5 witness: the fallback rule at a concrete raising output. -/
theorem fallback_on_parse_error_witness :
    pingSamples [some ⟨0, unparsableOutput⟩] =
      fallbackLatency :: pingSamples [] :=
  fallback_on_parse_error unparsableOutput [] (by with_unfolding_all decide)

/-- C6: the tier-to-settings mapping is a total deterministic function
on the four tiers whose values are exactly the claimed table (the Good
row carries no rate caps: the dict omits the alt-speed keys), a second
evaluation at the same tier is identical, and every run of
`adjust_transmission_settings` applies its tier's table row via
`session-set`. -/
theorem policy_table_total_deterministic :
    policySettings .good =
      { alt_speed_enabled := false, alt_speed_down := none,
        alt_speed_up := none, download_queue_size := 3,
        peer_limit_global := 100, peer_limit_per_torrent := 30 } ∧
    policySettings .poor =
      { alt_speed_enabled := true, alt_speed_down := some 50,
        alt_speed_up := some 5, download_queue_size := 2,
        peer_limit_global := 50, peer_limit_per_torrent := 15 } ∧
    policySettings .very_poor =
      { alt_speed_enabled := true, alt_speed_down := some 20,
        alt_speed_up := some 2, download_queue_size := 1,
        peer_limit_global := 30, peer_limit_per_torrent := 10 } ∧
    policySettings .offline =
      { alt_speed_enabled := true, alt_speed_down := some 10,
        alt_speed_up := some 1, download_queue_size := 1,
        peer_limit_global := 20, peer_limit_per_torrent := 5 } ∧
    (∀ t, policySettings t = policySettings t) ∧
    (∀ t st, Directive.sessionSet (policySettings t) ∈
      (adjust_transmission_settings t st).2) := by
  refine ⟨rfl, rfl, rfl, rfl, fun t => rfl, fun t st => ?_⟩
  cases t with
  | good =>
      by_cases h : st.connection_quality = ConnectionQuality.offline <;>
        simp [adjust_transmission_settings, h]
  | poor => simp [adjust_transmission_settings]
  | very_poor => simp [adjust_transmission_settings]
  | offline => simp [adjust_transmission_settings]

/-- C7: the bandwidth-mode invariant — `bandwidth_mode` equals the fixed
derived function of `connection_quality` (Offline/VeryPoor → minimal,
Poor → conservative, Good → normal) — holds of the initial state and is
preserved by every guarded loop iteration, including ones abandoned by a
caught exception; nothing else writes `bandwidth_mode`. -/
theorem bandwidth_mode_invariant :
    (∀ t0, stateInvariant (initial_network_state t0)) ∧
    (∀ gw st ev, stateInvariant st →
      stateInvariant (guardedCycle gw st ev).1) := by
  refine ⟨fun t0 => rfl, ?_⟩
  intro gw st ev hst
  cases ev with
  | normal inp => exact runCycle_invariant gw st inp
  | raised inp pt =>
      cases pt with
      | preUpdate => exact hst
      | postAdjust => exact runCycle_invariant gw st inp

/-- C7 witness: the invariant propagated through one guarded cycle from
the initial state. -/
theorem bandwidth_mode_invariant_witness :
    stateInvariant (guardedCycle failingGateway (initial_network_state 0)
      (.normal goodCycleInput)).1 :=
  bandwidth_mode_invariant.2 failingGateway (initial_network_state 0)
    (.normal goodCycleInput) (by decide)

/-- C8: every completed cycle whose recorded classification is Offline —
via a failed pre-check or an online cycle measuring no samples, whether
entered from another tier or repeated — issues exactly one pause-all
(`torrent-stop`), and issues it before applying the Offline policy
settings. -/
theorem offline_cycle_pauses (gw : GatewayBehaviour) (st : NetworkState)
    (inp : CycleInput)
    (h : (runCycle gw st inp).state.connection_quality =
      ConnectionQuality.offline) :
    (runCycle gw st inp).calls.count Directive.torrentStop = 1 ∧
    (runCycle gw st inp).calls.take 2 =
      [Directive.torrentStop,
       Directive.sessionSet (policySettings .offline)] := by
  rw [runCycle_quality] at h
  by_cases hr : inp.reachable = true
  · rw [if_pos hr] at h
    refine ⟨?_, ?_⟩ <;>
      simp [runCycle, hr, h, adjust_transmission_settings, List.count_cons]
  · refine ⟨?_, ?_⟩ <;>
      simp [runCycle, hr, adjust_transmission_settings, List.count_cons]

/-- C8 witness: the Good → Offline transition (failed pre-check from the
initial Good state) pauses exactly once, before the settings apply. -/
theorem offline_cycle_pauses_witness :
    (runCycle failingGateway (initial_network_state 0)
      ⟨false, [], 100⟩).calls.count Directive.torrentStop = 1 ∧
    (runCycle failingGateway (initial_network_state 0)
      ⟨false, [], 100⟩).calls.take 2 =
      [Directive.torrentStop,
       Directive.sessionSet (policySettings .offline)] :=
  offline_cycle_pauses failingGateway (initial_network_state 0)
    ⟨false, [], 100⟩ (by with_unfolding_all decide)

/-- C9: the `try`/`except Exception` boundary at the top of the loop
body catches every exception a cycle raises: the loop processes every
cycle event — also each one that raises — and after a raising cycle it
goes on to process all subsequent cycles; no exception terminates it. -/
theorem loop_survives_exceptions :
    (∀ gw st evs, ((runLoop gw st evs).2).length = evs.length) ∧
    (∀ gw st inp pt evs,
      (runLoop gw st (.raised inp pt :: evs)).2 =
        (guardedCycle gw st (.raised inp pt)).2 ::
          (runLoop gw (guardedCycle gw st (.raised inp pt)).1 evs).2) := by
  constructor
  · intro gw st evs
    induction evs generalizing st with
    | nil => rfl
    | cons ev evs ih => simp [runLoop, ih]
  · intro gw st inp pt evs
    simp [runLoop]

/-- C10: the state written by a completed cycle does not depend on the
gateway replies at all — with every `transmission_rpc_call` returning
`None` the state update still takes full effect (`is_online`,
`last_online`, `connection_quality`, `reconnect_count` and
`bandwidth_mode` all receive their new values, none is rolled back). -/
theorem state_update_gateway_independent :
    ∀ gw st inp,
      (runCycle gw st inp).state = (runCycle failingGateway st inp).state ∧
      (runCycle gw st inp).state.is_online = inp.reachable ∧
      (runCycle gw st inp).state.connection_quality =
        (if inp.reachable then measure_connection_quality inp.probes
         else ConnectionQuality.offline) ∧
      (runCycle gw st inp).state.reconnect_count =
        (if inp.reachable then 0 else st.reconnect_count + 1) ∧
      (runCycle gw st inp).state.last_online =
        (if inp.reachable then inp.now else st.last_online) ∧
      (runCycle gw st inp).state.bandwidth_mode =
        bandwidthFor (runCycle gw st inp).state.connection_quality := by
  intro gw st inp
  refine ⟨?_, ?_, runCycle_quality gw st inp, ?_, ?_, runCycle_invariant gw st inp⟩
  · by_cases hr : inp.reachable = true <;> simp [runCycle, hr]
  · by_cases hr : inp.reachable = true <;>
      simp [runCycle, hr, (adjust_state_fields _ _).2.1]
  · by_cases hr : inp.reachable = true <;>
      simp [runCycle, hr, (adjust_state_fields _ _).2.2.2.1]
  · by_cases hr : inp.reachable = true <;>
      simp [runCycle, hr, (adjust_state_fields _ _).2.2.1]
